import Mathlib

/-
Shallow embedding of the social-media-reply HTTP service
(arquivos main.py, llm_handler.py, database.py, models.py).
Text values are modelled as List Char so that the Python string
operations (strip, startswith, endswith, slicing) have exact
counterparts; dictionary keys are Lean String values.
-/

/-- Straight double-quote character, Unicode 34. Named to keep string
evaluation in proofs readable. -/
def dquote : Char := Char.ofNat 34

/-- Straight single-quote character, Unicode 39. -/
def squote : Char := Char.ofNat 39

/-- Whitespace as stripped by the Python str.strip method with no
arguments, restricted to the ASCII whitespace characters: space, tab,
newline, carriage return, vertical tab, form feed. -/
def isPyWhitespace (c : Char) : Bool :=
  c = ' ' || c = '\t' || c = '\n' || c = '\r' || c = Char.ofNat 11 || c = Char.ofNat 12

/-- Python str.strip with no arguments: remove leading and trailing
whitespace. Mirrors generated_text = response.text.strip() in
llm_handler.generate_reply. -/
def pyStrip (s : List Char) : List Char :=
  ((s.dropWhile isPyWhitespace).reverse.dropWhile isPyWhitespace).reverse

/-- Embedding of the quote-removal chain in llm_handler.generate_reply:
if generated_text.startswith(dquote) and generated_text.endswith(dquote)
then generated_text[1:-1], elif the same with squote then
generated_text[1:-1], else unchanged. startswith and endswith with a
one-character argument test the first and last character; the Python
slice [1:-1] drops the first and the last element. -/
def stripQuotes (t : List Char) : List Char :=
  if t.head? = some dquote ∧ t.getLast? = some dquote then (t.drop 1).dropLast
  else if t.head? = some squote ∧ t.getLast? = some squote then (t.drop 1).dropLast
  else t

/-- Full post-processing applied to the backend text in
llm_handler.generate_reply: strip whitespace, then remove one matching
outer quote pair. -/
def postprocess (raw : List Char) : List Char := stripQuotes (pyStrip raw)

/-- Outcome of the one call to model.generate_content_async inside the
try block of llm_handler.generate_reply, as observed by that code:
either an exception escapes the backend call (transport or backend
error), or the response has empty parts (blocked or empty), or the
response has parts and a text payload. -/
inductive BackendOutcome
  | exn (message : List Char)
  | blocked
  | text (raw : List Char)
  deriving DecidableEq

/-- Body of the try block in llm_handler.generate_reply, as an Except
value: an escaping exception is Except.error, a normal return is
Except.ok. With parts present the text is stripped and unquoted; with
empty parts the function returns None. -/
def generateAttempt : BackendOutcome → Except (List Char) (Option (List Char))
  | BackendOutcome.exn m => Except.error m
  | BackendOutcome.blocked => Except.ok none
  | BackendOutcome.text raw => Except.ok (some (postprocess raw))

/-- Result of llm_handler.generate_reply together with the side
observation of whether the backend was invoked at all. -/
structure GenResult where
  reply : Option (List Char)
  backendInvoked : Bool
  deriving DecidableEq

/-- Embedding of llm_handler.generate_reply. The first argument is the
module flag genai_configured (returned by is_llm_available): when it is
false the function returns None before touching the backend. Otherwise
the try block runs; the except clause converts any exception into a
None return, so the function never propagates an exception. -/
def generate_reply : Bool → BackendOutcome → GenResult
  | false, _ => ⟨none, false⟩
  | true, outcome =>
    match generateAttempt outcome with
    | Except.error _ => ⟨none, true⟩
    | Except.ok r => ⟨r, true⟩

/-- Embedding of llm_handler.is_llm_available: it returns the
configuration flag unchanged. -/
def is_llm_available (genaiConfigured : Bool) : Bool := genaiConfigured

/-- Dictionary key constants used by the pydantic models. -/
def platformKey : String := "platform"

/-- Key for the original post text. -/
def postTextKey : String := "post_text"

/-- Key for the generated reply. -/
def generatedReplyKey : String := "generated_reply"

/-- Key for the creation timestamp. -/
def timestampKey : String := "timestamp"

/-- Alias key of the optional id field of StoredReply (alias given by
Field(None, alias of underscore id) in models.py). -/
def idKey : String := "_id"

/-- Embedding of models.StoredReply: the ReplyResponse fields plus a
timestamp (opaque creation instant, modelled as Nat) and an optional id
that stays none until the persistence layer assigns one. -/
structure StoredReply where
  platform : List Char
  post_text : List Char
  generated_reply : List Char
  timestamp : Nat
  id : Option (List Char)
  deriving DecidableEq

/-- Value stored in a serialized document field: a text value or the
timestamp. -/
inductive DumpVal
  | str (s : List Char)
  | time (t : Nat)
  deriving DecidableEq

/-- Embedding of reply_data.model_dump(by_alias=True, exclude_none=True)
as used in database.save_reply: the fields in declaration order, with
the id field emitted under its alias and omitted when it is unset
(exclude_none removes None-valued fields). -/
def StoredReply.model_dump (r : StoredReply) : List (String × DumpVal) :=
  [(platformKey, DumpVal.str r.platform),
   (postTextKey, DumpVal.str r.post_text),
   (generatedReplyKey, DumpVal.str r.generated_reply),
   (timestampKey, DumpVal.time r.timestamp)] ++
  (match r.id with
   | none => []
   | some i => [(idKey, DumpVal.str i)])

/-- Outcome of the insert_one call on the collection: success with a
store-assigned identifier (already rendered as a string, as save_reply
returns str of the inserted id), or a raised exception. -/
inductive InsertOutcome
  | ok (insertedId : List Char)
  | failure (message : List Char)
  deriving DecidableEq

/-- State of the database module: reply_collection is None
(disconnected) or a live collection whose next insert has the given
outcome. -/
inductive DbState
  | disconnected
  | connected (outcome : InsertOutcome)
  deriving DecidableEq

/-- Embedding of database.is_db_connected: reply_collection is not None. -/
def is_db_connected : DbState → Bool
  | DbState.disconnected => false
  | DbState.connected _ => true

/-- Result of database.save_reply together with the side observations
of whether an insert was attempted and which document was handed to
insert_one. -/
structure SaveResult where
  result : Option (List Char)
  insertAttempted : Bool
  insertedDoc : Option (List (String × DumpVal))
  deriving DecidableEq

/-- Embedding of database.save_reply: if the collection is None return
None at once; otherwise serialize the record and run one insert inside
a try block whose except clause returns None, so a failed insert never
raises to the caller. -/
def save_reply (db : DbState) (r : StoredReply) : SaveResult :=
  match db with
  | DbState.disconnected => ⟨none, false, none⟩
  | DbState.connected outcome =>
    let document := r.model_dump
    match outcome with
    | InsertOutcome.ok i => ⟨some i, true, some document⟩
    | InsertOutcome.failure _ => ⟨none, true, some document⟩

/-- Parsed JSON value of a request body. -/
inductive Json
  | null
  | bool (b : Bool)
  | num (n : Int)
  | str (s : List Char)
  | obj (fields : List (String × Json))

/-- Embedding of models.PostData: the two validated request fields. -/
structure PostData where
  platform : List Char
  post_text : List Char
  deriving DecidableEq

/-- Pydantic validation of the request body against models.PostData:
the body must be an object whose platform and post_text entries are
present and of string type (pydantic v2 does not coerce numbers or
booleans to str, and places no minimum length on either field). -/
def validatePostData : Json → Option PostData
  | Json.obj fields =>
    (match fields.lookup platformKey, fields.lookup postTextKey with
     | some (Json.str p), some (Json.str t) => some ⟨p, t⟩
     | _, _ => none)
  | _ => none

/-- Detail text of the 503 raised by main.check_services. -/
def serviceUnavailableDetail : List Char :=
  "LLM service is not configured or unavailable.".data

/-- Detail text of the HTTPException raised in main.create_reply when
generate_reply returns None. -/
def generationFailedDetail : List Char :=
  "Failed to generate reply using the language model.".data

/-- Detail text of the HTTPException raised by the except clause of
main.create_reply, around the text of the caught exception. -/
def unexpectedErrorDetail (m : List Char) : List Char :=
  "An unexpected error occurred during reply generation: ".data ++ m

/-- Placeholder for the framework-generated 422 validation body; its
content is produced by FastAPI, not by code of this repository, and is
not modelled. -/
def validationErrorDetail : List Char := []

/-- Python str applied to a starlette HTTPException: the status code,
a colon and a space, and the detail text. -/
def httpExceptionStr (code : Nat) (detail : List Char) : List Char :=
  (Nat.repr code).data ++ ": ".data ++ detail

/-- Embedding of main.check_services: raise HTTPException 503 when
is_llm_available is false, otherwise return unit. -/
def check_services : Bool → Except (Nat × List Char) Unit
  | true => Except.ok ()
  | false => Except.error (503, serviceUnavailableDetail)

/-- Outcome of the llm_generate_reply call as seen inside
main.create_reply: either the call raises (Except.error holds the str
of the exception) or it returns an optional text. -/
abbrev GenOutcome := Except (List Char) (Option (List Char))

/-- HTTP response of the reply route: a 200 body echoing platform and
post text with the generated reply, or an error status and detail. -/
inductive ReplyOutcome
  | ok (platform post_text generated_reply : List Char)
  | err (statusCode : Nat) (detail : List Char)
  deriving DecidableEq

/-- Observable side effects of one handled request: whether the
llm_generate_reply call was reached, which StoredReply (if any) was
constructed, whether save_reply was called, and what it returned. -/
structure ReplyTrace where
  backendInvoked : Bool
  constructedRecord : Option StoredReply
  saveCalled : Bool
  saveReturned : Option (Option (List Char))
  deriving DecidableEq

/-- Response and trace of one handled request. -/
structure ReplyResult where
  response : ReplyOutcome
  trace : ReplyTrace
  deriving DecidableEq

/-- Embedding of the POST reply route of main.py, framework steps
included. FastAPI solves the check_services sub-dependency before it
surfaces body-validation errors, so an unavailable model client yields
503 even for an invalid body; with the gate passed, a body rejected by
pydantic yields 422 before the endpoint body runs. Inside the endpoint,
the whole generation step sits in a try block whose except clause
catches every Exception, including the HTTPException raised for a None
result, and re-raises it with the wrapped detail text; a non-None reply
is then placed in a StoredReply (timestamp from datetime.utcnow, id
unset) and, when is_db_connected holds, handed to save_reply, whose
return value is only logged; the 200 response is built from the
StoredReply fields. -/
def create_reply (llm : Bool) (db : DbState) (gen : GenOutcome) (ts : Nat)
    (body : Json) : ReplyResult :=
  match check_services llm with
  | Except.error e => ⟨ReplyOutcome.err e.1 e.2, ⟨false, none, false, none⟩⟩
  | Except.ok _ =>
    match validatePostData body with
    | none => ⟨ReplyOutcome.err 422 validationErrorDetail, ⟨false, none, false, none⟩⟩
    | some pd =>
      match gen with
      | Except.error m =>
        ⟨ReplyOutcome.err 500 (unexpectedErrorDetail m), ⟨true, none, false, none⟩⟩
      | Except.ok none =>
        ⟨ReplyOutcome.err 500
          (unexpectedErrorDetail (httpExceptionStr 500 generationFailedDetail)),
         ⟨true, none, false, none⟩⟩
      | Except.ok (some replyText) =>
        let record : StoredReply := ⟨pd.platform, pd.post_text, replyText, ts, none⟩
        if is_db_connected db then
          ⟨ReplyOutcome.ok pd.platform pd.post_text replyText,
           ⟨true, some record, true, some (save_reply db record).result⟩⟩
        else
          ⟨ReplyOutcome.ok pd.platform pd.post_text replyText,
           ⟨true, some record, false, none⟩⟩

/-- Body reported by the health endpoint. -/
structure HealthBody where
  status : String
  database : String
  llm : String
  deriving DecidableEq

/-- Embedding of main.health_check: render each dependency state as a
word, compare the rendered words, and answer 200 with an ok body when
both are healthy, else 503 with an error body carrying the same words. -/
def health_check (dbConn llmAvail : Bool) : Nat × HealthBody :=
  let dbStatus : String := if dbConn then "connected" else "disconnected"
  let llmStatus : String := if llmAvail then "available" else "unavailable"
  if dbStatus = "connected" ∧ llmStatus = "available" then
    (200, ⟨"ok", dbStatus, llmStatus⟩)
  else
    (503, ⟨"error", dbStatus, llmStatus⟩)

/-- Request body used by concrete witness runs. -/
def sampleBody : Json :=
  Json.obj [(platformKey, Json.str ("Twitter".data)),
            (postTextKey, Json.str ("hi".data))]

/-- C10: the quote-removal step of generate_reply places no length
bound on the stripped text: on a trimmed output that is a single
straight double-quote or single straight single-quote character, the
startswith and endswith tests both hold on that one character and the
slice returns the empty string, so generate_reply answers some empty
text. -/
theorem c10_single_quote_char_yields_empty :
    stripQuotes [dquote] = [] ∧ stripQuotes [squote] = [] ∧
    ([dquote].head? = some dquote ∧ [dquote].getLast? = some dquote) ∧
    ([squote].head? = some squote ∧ [squote].getLast? = some squote) ∧
    (generate_reply true (BackendOutcome.text [dquote])).reply = some [] ∧
    (generate_reply true (BackendOutcome.text [squote])).reply = some [] := by
  decide

/-- C9: health_check answers 200 with the ok body exactly when both
dependencies are healthy, and otherwise answers 503 with the error body
reporting the actual state words of each dependency. -/
theorem c9_health_check_characterization (d l : Bool) :
    (health_check d l =
      (if d = true ∧ l = true then 200 else 503,
       ⟨if d = true ∧ l = true then "ok" else "error",
        if d = true then "connected" else "disconnected",
        if l = true then "available" else "unavailable"⟩)) ∧
    ((health_check d l).1 = 200 ↔ (d = true ∧ l = true)) ∧
    ((health_check d l).1 = 503 ↔ ¬(d = true ∧ l = true)) := by
  cases d <;> cases l <;> decide

/-- C8: save_reply returns none at once with no insert attempt when the
collection is unavailable; when connected it serializes the record and
performs one insert, answering the assigned identifier on success and
none on failure, and in the serialized document the id field appears,
under its alias, exactly when it is set. The total return type records
that no exception reaches the caller. -/
theorem c8_save_reply_characterization (r : StoredReply) (i m : List Char) :
    save_reply DbState.disconnected r = ⟨none, false, none⟩ ∧
    save_reply (DbState.connected (InsertOutcome.ok i)) r =
      ⟨some i, true, some r.model_dump⟩ ∧
    save_reply (DbState.connected (InsertOutcome.failure m)) r =
      ⟨none, true, some r.model_dump⟩ ∧
    r.model_dump.map Prod.fst =
      [platformKey, postTextKey, generatedReplyKey, timestampKey] ++
        (match r.id with
         | none => []
         | some _ => [idKey]) := by
  refine ⟨rfl, rfl, rfl, ?_⟩
  cases h : r.id <;> simp [StoredReply.model_dump, h]

/-- C7: generate_reply answers none, rather than raising, exactly when
the client is disabled (and then without invoking the backend), when
the backend produced no usable parts, or when the backend call raised;
the except clause turns the raised error into a none return, and a
produced text is answered, post-processed, as some value. -/
theorem c7_generate_reply_none_cases (outcome : BackendOutcome) (m raw : List Char) :
    generate_reply false outcome = ⟨none, false⟩ ∧
    generate_reply true BackendOutcome.blocked = ⟨none, true⟩ ∧
    generate_reply true (BackendOutcome.exn m) = ⟨none, true⟩ ∧
    generateAttempt (BackendOutcome.exn m) = Except.error m ∧
    (generate_reply true (BackendOutcome.text raw)).reply = some (postprocess raw) ∧
    ((generate_reply true outcome).reply = none ↔
      outcome = BackendOutcome.blocked ∨ ∃ mm, outcome = BackendOutcome.exn mm) := by
  refine ⟨rfl, rfl, rfl, rfl, rfl, ?_⟩
  cases outcome <;> simp [generate_reply, generateAttempt]

/-- C2: with a well-formed body and an available client, a none result
from generation makes create_reply answer 500 with no save_reply call,
but the detail is not the text raised for the none case: the except
clause around the generation step catches the very HTTPException raised
for a none result and re-raises it with the wrapped detail; an
exception escaping the client call is likewise answered as 500 with the
wrapped underlying message and no save. -/
theorem c2_none_result_detail_is_wrapped :
    (create_reply true DbState.disconnected (Except.ok none) 0 sampleBody).response =
      ReplyOutcome.err 500
        (unexpectedErrorDetail (httpExceptionStr 500 generationFailedDetail)) ∧
    (create_reply true DbState.disconnected (Except.ok none) 0 sampleBody).response ≠
      ReplyOutcome.err 500 generationFailedDetail ∧
    (create_reply true DbState.disconnected (Except.ok none) 0 sampleBody).trace.saveCalled
      = false ∧
    (create_reply true DbState.disconnected (Except.error ("boom".data)) 0
        sampleBody).response =
      ReplyOutcome.err 500 (unexpectedErrorDetail ("boom".data)) ∧
    (create_reply true DbState.disconnected (Except.error ("boom".data)) 0
        sampleBody).trace.saveCalled = false := by
  refine ⟨rfl, ?_, rfl, rfl, rfl⟩
  decide

/-- C5: whenever the model client is unavailable, any request with a
well-formed body is answered 503 with the non-empty service detail, and
neither the backend invocation nor a StoredReply construction nor a
save_reply call is reached. -/
theorem c5_unavailable_llm_short_circuits (db : DbState) (gen : GenOutcome)
    (ts : Nat) (body : Json) (pd : PostData)
    (_h : validatePostData body = some pd) :
    create_reply false db gen ts body =
      ⟨ReplyOutcome.err 503 serviceUnavailableDetail, ⟨false, none, false, none⟩⟩ ∧
    serviceUnavailableDetail ≠ [] := by
  exact ⟨rfl, by decide⟩

/-- C5 witness: a concrete disabled-client run over the sample body. -/
theorem c5_unavailable_llm_short_circuits_witness :
    create_reply false DbState.disconnected (Except.ok none) 0 sampleBody =
      ⟨ReplyOutcome.err 503 serviceUnavailableDetail, ⟨false, none, false, none⟩⟩ ∧
    serviceUnavailableDetail ≠ [] :=
  c5_unavailable_llm_short_circuits DbState.disconnected (Except.ok none) 0 sampleBody
    ⟨"Twitter".data, "hi".data⟩ (by decide)

/-- C1 counterexample: the guard in create_reply tests only for a None
generation result, so a backend output consisting of one double-quote
character, which post-processing turns into the empty string, leads to
a StoredReply with an empty generated_reply being constructed and
handed to save_reply. -/
theorem c1_empty_reply_persisted_cex :
    (generate_reply true (BackendOutcome.text [dquote])).reply = some [] ∧
    (create_reply true (DbState.connected (InsertOutcome.ok ("abc".data)))
        (Except.ok ((generate_reply true (BackendOutcome.text [dquote])).reply)) 0
        sampleBody).trace.saveCalled = true ∧
    (create_reply true (DbState.connected (InsertOutcome.ok ("abc".data)))
        (Except.ok ((generate_reply true (BackendOutcome.text [dquote])).reply)) 0
        sampleBody).trace.constructedRecord =
      some ⟨"Twitter".data, "hi".data, [], 0, none⟩ := by
  decide

/-- C1 amended: whenever create_reply constructs a StoredReply, the
generation call has returned an actual string, namely the very value
placed in the generated_reply field, and the id field is unset; the
string may however be empty, since only a None result is rejected. -/
theorem c1_stored_record_amended (llm : Bool) (db : DbState) (gen : GenOutcome)
    (ts : Nat) (body : Json) (r : StoredReply)
    (h : (create_reply llm db gen ts body).trace.constructedRecord = some r) :
    gen = Except.ok (some r.generated_reply) ∧ r.id = none := by
  cases llm with
  | false => simp [create_reply, check_services] at h
  | true =>
    simp only [create_reply, check_services] at h
    rcases hv : validatePostData body with _ | pd
    · rw [hv] at h
      simp at h
    · rw [hv] at h
      rcases gen with m | o
      · simp at h
      · rcases o with _ | s
        · simp at h
        · cases hd : is_db_connected db <;> simp [hd] at h <;> subst h <;>
            exact ⟨rfl, rfl⟩

/-- C1 witness: a concrete successful run constructs the expected
record. -/
theorem c1_stored_record_amended_witness :
    (Except.ok (some ("ok".data)) : GenOutcome) =
      Except.ok (some ((⟨"Twitter".data, "hi".data, "ok".data, 0, none⟩ :
        StoredReply).generated_reply)) ∧
    (⟨"Twitter".data, "hi".data, "ok".data, 0, none⟩ : StoredReply).id = none :=
  c1_stored_record_amended true DbState.disconnected (Except.ok (some ("ok".data))) 0
    sampleBody ⟨"Twitter".data, "hi".data, "ok".data, 0, none⟩ (by decide)

/-- C3 counterexample: a body carrying empty strings in both fields
passes validation and, with generation succeeding, the request is
answered 200, not 422: pydantic str fields place no minimum length on
either value. -/
theorem c3_empty_strings_accepted_cex :
    validatePostData (Json.obj [(platformKey, Json.str []), (postTextKey, Json.str [])]) =
      some ⟨[], []⟩ ∧
    (create_reply true DbState.disconnected (Except.ok (some ("ok".data))) 0
        (Json.obj [(platformKey, Json.str []), (postTextKey, Json.str [])])).response =
      ReplyOutcome.ok [] [] ("ok".data) := by
  decide

/-- C3 amended: with the availability gate passed, validation accepts
exactly the bodies where platform and post_text are both present with
string values, empty strings included; any body with a field absent or
of the wrong primitive type is answered 422 before the generation or
persistence steps are reached. -/
theorem c3_validation_characterization (body : Json) (db : DbState) (gen : GenOutcome)
    (ts : Nat) (fields : List (String × Json)) (p t : List Char) (pd : PostData) :
    (validatePostData body = none →
      create_reply true db gen ts body =
        ⟨ReplyOutcome.err 422 validationErrorDetail, ⟨false, none, false, none⟩⟩) ∧
    (fields.lookup platformKey = some (Json.str p) →
      fields.lookup postTextKey = some (Json.str t) →
      validatePostData (Json.obj fields) = some ⟨p, t⟩) ∧
    (validatePostData (Json.obj fields) = some pd →
      fields.lookup platformKey = some (Json.str pd.platform) ∧
      fields.lookup postTextKey = some (Json.str pd.post_text)) := by
  refine ⟨?_, ?_, ?_⟩
  · intro h
    simp [create_reply, check_services, h]
  · intro h1 h2
    simp [validatePostData, h1, h2]
  · intro h
    simp only [validatePostData] at h
    split at h
    · rename_i p2 t2 h1 h2
      injection h with h3
      subst h3
      exact ⟨h1, h2⟩
    · exact Option.noConfusion h

/-- C3 witness: a body whose platform is a number is answered 422 with
no downstream calls, and a body of two empty strings validates. -/
theorem c3_validation_characterization_witness :
    create_reply true DbState.disconnected (Except.ok none) 0
        (Json.obj [(platformKey, Json.num 123)]) =
      ⟨ReplyOutcome.err 422 validationErrorDetail, ⟨false, none, false, none⟩⟩ ∧
    validatePostData (Json.obj [(platformKey, Json.str []), (postTextKey, Json.str [])]) =
      some ⟨[], []⟩ :=
  ⟨(c3_validation_characterization (Json.obj [(platformKey, Json.num 123)])
      DbState.disconnected (Except.ok none) 0 [] [] [] ⟨[], []⟩).1 (by decide),
   (c3_validation_characterization Json.null DbState.disconnected (Except.ok none) 0
      [(platformKey, Json.str []), (postTextKey, Json.str [])] [] [] ⟨[], []⟩).2.1
      rfl rfl⟩

/-- C4: post-processing first trims surrounding whitespace; when the
trimmed text is wrapped in one matching pair of straight double-quotes
or straight single-quotes, exactly that outer pair is removed, in a
single non-recursive step; otherwise, one-sided or mismatched quoting
included, the trimmed text is returned unchanged. -/
theorem c4_quote_stripping (raw inner : List Char) :
    (pyStrip raw = dquote :: (inner ++ [dquote]) → postprocess raw = inner) ∧
    (pyStrip raw = squote :: (inner ++ [squote]) → postprocess raw = inner) ∧
    (¬((pyStrip raw).head? = some dquote ∧ (pyStrip raw).getLast? = some dquote) →
      ¬((pyStrip raw).head? = some squote ∧ (pyStrip raw).getLast? = some squote) →
      postprocess raw = pyStrip raw) := by
  refine ⟨?_, ?_, ?_⟩
  · intro h
    unfold postprocess
    rw [h]
    unfold stripQuotes
    have hq : (dquote :: (inner ++ [dquote])).getLast? = some dquote := by
      rw [← List.cons_append]
      exact List.getLast?_concat _
    rw [if_pos ⟨rfl, hq⟩]
    exact List.dropLast_concat
  · intro h
    unfold postprocess
    rw [h]
    unfold stripQuotes
    have hq : (squote :: (inner ++ [squote])).getLast? = some squote := by
      rw [← List.cons_append]
      exact List.getLast?_concat _
    have hne : ¬((squote :: (inner ++ [squote])).head? = some dquote ∧
        (squote :: (inner ++ [squote])).getLast? = some dquote) := by
      rintro ⟨hc, -⟩
      rw [List.head?_cons] at hc
      exact absurd hc (by decide)
    rw [if_neg hne, if_pos ⟨rfl, hq⟩]
    exact List.dropLast_concat
  · intro h1 h2
    unfold postprocess stripQuotes
    rw [if_neg h1, if_neg h2]

/-- C4 witness: a double-quoted text normalizes to its interior after
trimming, a doubly wrapped text loses exactly one pair, and a one-sided
quote is left unchanged after trimming. -/
theorem c4_quote_stripping_witness :
    postprocess (' ' :: dquote :: ("hello".data ++ [dquote, ' '])) = "hello".data ∧
    postprocess (dquote :: dquote :: ("hi".data ++ [dquote, dquote])) =
      dquote :: ("hi".data ++ [dquote]) ∧
    postprocess (dquote :: ("hi".data)) = pyStrip (dquote :: ("hi".data)) :=
  ⟨(c4_quote_stripping (' ' :: dquote :: ("hello".data ++ [dquote, ' ']))
      ("hello".data)).1 (by decide),
   (c4_quote_stripping (dquote :: dquote :: ("hi".data ++ [dquote, dquote]))
      (dquote :: ("hi".data ++ [dquote]))).1 (by decide),
   (c4_quote_stripping (dquote :: ("hi".data)) []).2.2 (by decide) (by decide)⟩

/-- C6: once generation has succeeded, the response of the reply route
is the 200 body echoing the request fields with the generated reply,
and it is identical across any two persistence states: disconnected
store, failing insert and successful insert all leave the response
untouched. -/
theorem c6_response_independent_of_persistence (db db2 : DbState) (ts : Nat)
    (body : Json) (pd : PostData) (r : List Char)
    (h : validatePostData body = some pd) :
    (create_reply true db (Except.ok (some r)) ts body).response =
      ReplyOutcome.ok pd.platform pd.post_text r ∧
    (create_reply true db (Except.ok (some r)) ts body).response =
      (create_reply true db2 (Except.ok (some r)) ts body).response := by
  have key : ∀ d : DbState,
      (create_reply true d (Except.ok (some r)) ts body).response =
        ReplyOutcome.ok pd.platform pd.post_text r := by
    intro d
    simp only [create_reply, check_services, h]
    cases hd : is_db_connected d <;> simp [hd]
  exact ⟨key db, (key db).trans (key db2).symm⟩

/-- C6 witness: a concrete run compared across a disconnected store and
a failing insert. -/
theorem c6_response_independent_of_persistence_witness :
    (create_reply true DbState.disconnected (Except.ok (some ("ok".data))) 0
        sampleBody).response =
      ReplyOutcome.ok ("Twitter".data) ("hi".data) ("ok".data) ∧
    (create_reply true DbState.disconnected (Except.ok (some ("ok".data))) 0
        sampleBody).response =
      (create_reply true (DbState.connected (InsertOutcome.failure ("down".data)))
        (Except.ok (some ("ok".data))) 0 sampleBody).response :=
  c6_response_independent_of_persistence DbState.disconnected
    (DbState.connected (InsertOutcome.failure ("down".data))) 0 sampleBody
    ⟨"Twitter".data, "hi".data⟩ ("ok".data) (by decide)
